import Mathlib

/-!
# Verification of the Airwallex client library's core subsystems

A shallow embedding, in Lean 4, of the two subsystems of the `airwallex-rs`
client library that carry correctness invariants:

* the webhook signature verifier (`src/webhooks.rs`): two HMAC-SHA256 schemes,
  a shared timestamp-freshness check, and a constant-time comparator;
* the token manager (`src/auth/token.rs`): token expiry with a refresh buffer,
  and the classification of login responses.

Rust byte strings (`&str`, `&[u8]`) are modelled as `List Nat` of byte values;
machine words are `Nat` with explicit `% 2^32` where overflow matters; time is
explicit: every function that reads the ambient clock (`SystemTime::now()`,
`Utc::now()`) takes the current instant as an extra parameter, in nanoseconds
since the Unix epoch (the resolution at which `SystemTime` and `chrono`
compare instants).  Fallible Rust code returns `Except`/`Option`.

The external crates the code calls (`sha2`, `hmac`, `hex`, `base64`) are
pinned wire formats (FIPS 180-4, RFC 2104, RFC 4648); they are embedded
concretely below so that every definition is executable.
-/

namespace Airwallex

namespace Sha256

/-! ## SHA-256 (the `sha2` crate, FIPS 180-4) -/

/-- Truncate a natural number to a 32-bit word. -/
def w32 (x : Nat) : Nat := x % 4294967296

/-- 32-bit modular addition. -/
def add32 (a b : Nat) : Nat := (a + b) % 4294967296

/-- Rotate a 32-bit word right by `n` bits. -/
def rotr (n x : Nat) : Nat := w32 ((x >>> n) ||| (x <<< (32 - n)))

/-- The SHA-256 choice function; the complement is xor with the 32-bit mask. -/
def ch (x y z : Nat) : Nat := (x &&& y) ^^^ ((x ^^^ 4294967295) &&& z)

/-- The SHA-256 majority function. -/
def maj (x y z : Nat) : Nat := (x &&& y) ^^^ (x &&& z) ^^^ (y &&& z)

/-- Upper-case sigma-0 of FIPS 180-4. -/
def bigSigma0 (x : Nat) : Nat := rotr 2 x ^^^ rotr 13 x ^^^ rotr 22 x

/-- Upper-case sigma-1 of FIPS 180-4. -/
def bigSigma1 (x : Nat) : Nat := rotr 6 x ^^^ rotr 11 x ^^^ rotr 25 x

/-- Lower-case sigma-0 of FIPS 180-4. -/
def smallSigma0 (x : Nat) : Nat := rotr 7 x ^^^ rotr 18 x ^^^ (x >>> 3)

/-- Lower-case sigma-1 of FIPS 180-4. -/
def smallSigma1 (x : Nat) : Nat := rotr 17 x ^^^ rotr 19 x ^^^ (x >>> 10)

/-- The 64 SHA-256 round constants (FIPS 180-4 section 4.2.2, in decimal). -/
def K : List Nat :=
  [1116352408, 1899447441, 3049323471, 3921009573, 961987163,
   1508970993, 2453635748, 2870763221, 3624381080, 310598401,
   607225278, 1426881987, 1925078388, 2162078206, 2614888103,
   3248222580, 3835390401, 4022224774, 264347078, 604807628,
   770255983, 1249150122, 1555081692, 1996064986, 2554220882,
   2821834349, 2952996808, 3210313671, 3336571891, 3584528711,
   113926993, 338241895, 666307205, 773529912, 1294757372,
   1396182291, 1695183700, 1986661051, 2177026350, 2456956037,
   2730485921, 2820302411, 3259730800, 3345764771, 3516065817,
   3600352804, 4094571909, 275423344, 430227734, 506948616,
   659060556, 883997877, 958139571, 1322822218, 1537002063,
   1747873779, 1955562222, 2024104815, 2227730452, 2361852424,
   2428436474, 2756734187, 3204031479, 3329325298]

/-- The initial SHA-256 hash state (FIPS 180-4 section 5.3.3, in decimal). -/
def H0 : List Nat :=
  [1779033703, 3144134277, 1013904242, 2773480762,
   1359893119, 2600822924, 528734635, 1541459225]

/-- A 64-bit big-endian byte encoding (for the padded message length). -/
def be64 (n : Nat) : List Nat :=
  [(n >>> 56) % 256, (n >>> 48) % 256, (n >>> 40) % 256, (n >>> 32) % 256,
   (n >>> 24) % 256, (n >>> 16) % 256, (n >>> 8) % 256, n % 256]

/-- Merkle-Damgard padding: a `0x80` byte, zeros to 56 mod 64, then the
bit length as 8 big-endian bytes. -/
def pad (msg : List Nat) : List Nat :=
  msg ++ 128 :: List.replicate ((64 - (msg.length + 9) % 64) % 64) 0 ++ be64 (8 * msg.length)

/-- Group bytes into 32-bit big-endian words. -/
def toWords : List Nat → List Nat
  | a :: b :: c :: d :: rest => (((a * 256 + b) * 256 + c) * 256 + d) :: toWords rest
  | _ => []

/-- A 32-bit word as 4 big-endian bytes. -/
def wordBytes (w : Nat) : List Nat :=
  [(w >>> 24) % 256, (w >>> 16) % 256, (w >>> 8) % 256, w % 256]

/-- Extend the 16 words of a block by `n` message-schedule words. -/
def scheduleExtend (ws : List Nat) : Nat → List Nat
  | 0 => ws
  | n + 1 =>
    let prev := scheduleExtend ws n
    let l := prev.length
    prev ++ [add32 (add32 (smallSigma1 (prev.getD (l - 2) 0)) (prev.getD (l - 7) 0))
               (add32 (smallSigma0 (prev.getD (l - 15) 0)) (prev.getD (l - 16) 0))]

/-- One round of the SHA-256 compression function on the 8-word state. -/
def compressWord (st : List Nat) (k w : Nat) : List Nat :=
  let a := st.getD 0 0
  let b := st.getD 1 0
  let c := st.getD 2 0
  let d := st.getD 3 0
  let e := st.getD 4 0
  let f := st.getD 5 0
  let g := st.getD 6 0
  let h := st.getD 7 0
  let t1 := add32 h (add32 (bigSigma1 e) (add32 (ch e f g) (add32 k w)))
  let t2 := add32 (bigSigma0 a) (maj a b c)
  [add32 t1 t2, a, b, c, add32 d t1, e, f, g]

/-- Compress one 64-byte block into the running hash state. -/
def compressBlock (h block : List Nat) : List Nat :=
  let ws := scheduleExtend (toWords block) 48
  let st := (K.zip ws).foldl (fun st kw => compressWord st kw.1 kw.2) h
  (h.zip st).map (fun p => add32 p.1 p.2)

/-- Split a byte list into 64-byte blocks. -/
def chunks64 (l : List Nat) : List (List Nat) :=
  if h : l = [] then []
  else l.take 64 :: chunks64 (l.drop 64)
termination_by l.length
decreasing_by
  simp only [List.length_drop]
  have := List.length_pos.mpr h
  omega

/-- The SHA-256 digest (32 bytes) of a byte string. -/
def sha256 (msg : List Nat) : List Nat :=
  List.flatten ((((chunks64 (pad msg)).foldl compressBlock H0)).map wordBytes)

/-- HMAC-SHA256 (RFC 2104): keys longer than the 64-byte block are hashed
first, shorter keys are zero-padded to the block size. -/
def hmacSha256 (key msg : List Nat) : List Nat :=
  let k0 := if 64 < key.length then sha256 key else key
  let k := k0 ++ List.replicate (64 - k0.length) 0
  let ipadKey := k.map (fun b => b ^^^ 54)
  let opadKey := k.map (fun b => b ^^^ 92)
  sha256 (opadKey ++ sha256 (ipadKey ++ msg))

end Sha256

/-! ## The `hmac` crate's streaming interface, as used by `webhooks.rs` -/

/-- The streaming HMAC-SHA256 state (`Hmac<Sha256>` of the `hmac` crate): the
key fixed at construction and the bytes fed so far via `update`. -/
structure HmacSha256 where
  key : List Nat
  buf : List Nat
deriving DecidableEq

/-- `HmacSha256::new_from_slice`.  HMAC accepts keys of every length (long
keys are hashed, short keys padded), so the `hmac` crate never returns
`InvalidLength` here; the `Option` records the Rust signature's fallibility. -/
def HmacSha256.new_from_slice (key : List Nat) : Option HmacSha256 :=
  some { key := key, buf := [] }

/-- `Mac::update`: append bytes to the message being authenticated. -/
def HmacSha256.update (m : HmacSha256) (data : List Nat) : HmacSha256 :=
  { key := m.key, buf := m.buf ++ data }

/-- `Mac::finalize` followed by `into_bytes`: the 32-byte HMAC tag over
everything fed to `update`. -/
def HmacSha256.finalize (m : HmacSha256) : List Nat :=
  Sha256.hmacSha256 m.key m.buf

/-! ## The `hex` and `base64` crates' encoders -/

/-- A nibble as a lowercase ASCII hex digit (`hex::encode` is lowercase). -/
def hexDigitChar (n : Nat) : Nat := if n < 10 then 48 + n else 87 + n

/-- `hex::encode`: each byte becomes two lowercase hex digits, high nibble
first.  Bytes are `u8`, so the high nibble is `b / 16`; the `% 16` records
that range in the `Nat` model. -/
def hexEncode (bytes : List Nat) : List Nat :=
  List.flatten (bytes.map (fun b => [hexDigitChar ((b / 16) % 16), hexDigitChar (b % 16)]))

/-- The standard base64 alphabet (RFC 4648), as ASCII codes. -/
def b64Char (n : Nat) : Nat :=
  if n < 26 then 65 + n
  else if n < 52 then 71 + n
  else if n < 62 then n - 4
  else if n = 62 then 43
  else 47

/-- `base64::engine::general_purpose::STANDARD.encode`: 3-byte groups become
4 alphabet characters; a final 1- or 2-byte group is padded with `=` (61). -/
def base64Encode : List Nat → List Nat
  | a :: b :: c :: rest =>
    b64Char (a / 4) :: b64Char ((a % 4) * 16 + b / 16) ::
      b64Char ((b % 16) * 4 + c / 64) :: b64Char (c % 64) :: base64Encode rest
  | [a, b] => [b64Char (a / 4), b64Char ((a % 4) * 16 + b / 16), b64Char ((b % 16) * 4), 61]
  | [a] => [b64Char (a / 4), b64Char ((a % 4) * 16), 61, 61]
  | [] => []

/-! ## `webhooks.rs` -/

/-- `WebhookError`: the verification failure taxonomy of `webhooks.rs`. -/
inductive WebhookError where
  | InvalidSignature
  | TimestampTooOld (age_seconds tolerance_seconds : Nat)
  | TimestampInFuture
  | InvalidTimestamp
  | InvalidNonce
  | HmacError
deriving DecidableEq, Repr

/-- `DEFAULT_TOLERANCE`: 5 minutes, here in nanoseconds. -/
def DEFAULT_TOLERANCE : Nat := 300 * 1000000000

/-- Rust's `str::parse::<u64>` on ASCII bytes: an optional leading `+` (byte
43), then one or more decimal digits, rejecting anything else, the empty
digit string, and values outside `u64`. -/
def parseU64 (s : List Nat) : Option Nat :=
  let digits := match s with
    | 43 :: rest => rest
    | _ => s
  let rec go (acc : Nat) : List Nat → Option Nat
    | [] => some acc
    | c :: rest => if 48 ≤ c ∧ c ≤ 57 then go (acc * 10 + (c - 48)) rest else none
  match digits with
  | [] => none
  | _ =>
    match go 0 digits with
    | some n => if n < 18446744073709551616 then some n else none
    | none => none

/-- `verify_timestamp`: parse the millisecond timestamp, reject it if it is
more than 30 seconds in the future, reject it if its age exceeds the
tolerance, and accept otherwise.  `now` is the ambient clock
(`SystemTime::now()`) in nanoseconds since the epoch; the first guard mirrors
the nested `if` of the source and the second mirrors
`now.duration_since(webhook_time)` succeeding (i.e. `webhook_time ≤ now`). -/
def verify_timestamp (timestamp_ms_str : List Nat) (tolerance now : Nat) :
    Except WebhookError Unit :=
  match parseU64 timestamp_ms_str with
  | none => .error .InvalidTimestamp
  | some timestamp_ms =>
    let webhook_time := timestamp_ms * 1000000
    if webhook_time > now ∧ webhook_time > now + 30 * 1000000000 then
      .error .TimestampInFuture
    else if webhook_time ≤ now ∧ now - webhook_time > tolerance then
      .error (.TimestampTooOld ((now - webhook_time) / 1000000000) (tolerance / 1000000000))
    else
      .ok ()

/-- `constant_time_compare`: unequal lengths are rejected up front; equal
lengths fold the byte-wise xors into an or-accumulator and compare it to 0. -/
def constant_time_compare (a b : List Nat) : Bool :=
  if a.length ≠ b.length then false
  else ((a.zip b).foldl (fun result xy => result ||| (xy.1 ^^^ xy.2)) 0) == 0

/-- `compute_signature`: hex-encoded HMAC-SHA256 of the secret over the
timestamp bytes then the payload bytes (two `update` calls, no separator). -/
def compute_signature (secret timestamp payload : List Nat) :
    Except WebhookError (List Nat) :=
  match HmacSha256.new_from_slice secret with
  | none => .error .HmacError
  | some mac => .ok (hexEncode ((mac.update timestamp).update payload).finalize)

/-- `verify_signature_with_tolerance`: timestamp freshness, then the expected
signature, then the constant-time comparison (the `?` operator is the
explicit match on each `Except`). -/
def verify_signature_with_tolerance (secret timestamp payload signature : List Nat)
    (tolerance now : Nat) : Except WebhookError Unit :=
  match verify_timestamp timestamp tolerance now with
  | .error e => .error e
  | .ok _ =>
    match compute_signature secret timestamp payload with
    | .error e => .error e
    | .ok expected =>
      if constant_time_compare expected signature then .ok () else .error .InvalidSignature

/-- `verify_signature`: the default-tolerance entry point. -/
def verify_signature (secret timestamp payload signature : List Nat) (now : Nat) :
    Except WebhookError Unit :=
  verify_signature_with_tolerance secret timestamp payload signature DEFAULT_TOLERANCE now

/-- Rust's `str::split(sep)` as a list of separator-free pieces; it always
yields at least one piece (splitting the empty string gives `[[]]`). -/
def rustSplit (sep : Nat) : List Nat → List (List Nat)
  | [] => [[]]
  | c :: rest =>
    let r := rustSplit sep rest
    if c = sep then [] :: r
    else (c :: r.headI) :: r.tail

/-- `compute_remote_auth_signature`: base64-encoded HMAC-SHA256 of the shared
secret over the whole nonce. -/
def compute_remote_auth_signature (shared_secret nonce : List Nat) :
    Except WebhookError (List Nat) :=
  match HmacSha256.new_from_slice shared_secret with
  | none => .error .HmacError
  | some mac => .ok (base64Encode (mac.update nonce).finalize)

/-- `verify_remote_auth_signature_with_tolerance`: take the part of the nonce
before the first `.` (byte 46) — `split('.').next().ok_or(InvalidNonce)` —
check its freshness as a millisecond timestamp, then constant-time compare
against the expected signature over the full nonce. -/
def verify_remote_auth_signature_with_tolerance
    (shared_secret nonce signature : List Nat) (tolerance now : Nat) :
    Except WebhookError Unit :=
  match (rustSplit 46 nonce).head? with
  | none => .error .InvalidNonce
  | some timestamp_str =>
    match verify_timestamp timestamp_str tolerance now with
    | .error e => .error e
    | .ok _ =>
      match compute_remote_auth_signature shared_secret nonce with
      | .error e => .error e
      | .ok expected =>
        if constant_time_compare expected signature then .ok () else .error .InvalidSignature

/-- `verify_remote_auth_signature`: the default-tolerance entry point. -/
def verify_remote_auth_signature (shared_secret nonce signature : List Nat) (now : Nat) :
    Except WebhookError Unit :=
  verify_remote_auth_signature_with_tolerance shared_secret nonce signature DEFAULT_TOLERANCE now

/-! ## `auth/token.rs`

Instants (`chrono::DateTime<Utc>`) are `Int` nanoseconds since the Unix
epoch; `std::time::Duration` values are `Nat` nanoseconds.  The secrecy
wrapper around the token value only affects `Debug` formatting, so the value
is carried as a plain `String`. -/

/-- `Token`: a bearer token value and its absolute expiry instant. -/
structure Token where
  value : String
  expires_at : Int
deriving DecidableEq

/-- `Token::new`. -/
def Token.new (value : String) (expires_at : Int) : Token :=
  { value := value, expires_at := expires_at }

/-- `Token::bearer_value`. -/
def Token.bearer_value (t : Token) : String :=
  "Bearer " ++ t.value

/-- `chrono::Duration::from_std`: succeeds only when the std duration fits a
chrono `Duration`, whose maximum is exactly `i64::MAX` milliseconds, compared
at full nanosecond precision (sub-millisecond nanoseconds are preserved). -/
def chronoDurationFromStd (buffer : Nat) : Option Nat :=
  if buffer ≤ 9223372036854775807 * 1000000 then some buffer else none

/-- chrono `NaiveDateTime::MAX` — 262143-12-31T23:59:59.999999999, the latest
instant a `DateTime<Utc>` can hold — as nanoseconds since the Unix epoch. -/
def dateTimeMaxNs : Int := 8210298412799999999999

/-- chrono `NaiveDateTime::MIN` — -262144-01-01T00:00:00 — as nanoseconds
since the Unix epoch. -/
def dateTimeMinNs : Int := -8334632937600000000000

/-- chrono's `DateTime<Utc> + Duration`: `checked_add_signed(..)` followed by
an `expect` that panics when the sum leaves the representable range; `none`
is the panic. -/
def dateTimeAdd (t d : Int) : Option Int :=
  if dateTimeMinNs ≤ t + d ∧ t + d ≤ dateTimeMaxNs then some (t + d) else none

/-- `Token::is_expired_with_buffer`: convert the buffer with
`from_std(..).unwrap_or(zero)` and test `Utc::now() + buffer >= expires_at`;
`now` is the ambient clock.  The addition is chrono's panicking `Add`
(`none` models the panic). -/
def Token.is_expired_with_buffer (t : Token) (buffer : Nat) (now : Int) : Option Bool :=
  let buffer_chrono := (chronoDurationFromStd buffer).getD 0
  match dateTimeAdd now (buffer_chrono : Int) with
  | none => none
  | some sum => some (decide (sum ≥ t.expires_at))

/-- `ApiErrorResponse` of `error.rs`; `serde_json::Value` details are carried
as their JSON text. -/
structure ApiErrorResponse where
  code : String
  message : String
  trace_id : Option String
  details : Option String
deriving DecidableEq

/-- The `Error` enum of `error.rs` (the variants the token manager can
produce; `Http` carries the transport error's message). -/
inductive Error where
  | Http (message : String)
  | Api (code message : String) (trace_id details : Option String)
  | RateLimited (retry_after : Option Nat)
  | Authentication (message : String)
  | Validation (message : String)
  | NotFound
  | Serialization (message : String)
  | Config (message : String)
deriving DecidableEq

/-- `Error::from_api_response`. -/
def Error.from_api_response (r : ApiErrorResponse) : Error :=
  .Api r.code r.message r.trace_id r.details

/-- `LoginResponse`: the parsed body of a successful authentication call. -/
structure LoginResponse where
  token : String
  expires_at : Int
deriving DecidableEq

/-- An HTTP response as the login exchange observes it: the status code and
the body text (`response.text()` failures already defaulted to `""` by
`unwrap_or_default`). -/
structure HttpResponse where
  status : Nat
  body : String

/-- `StatusCode::is_success`: 2xx. -/
def statusIsSuccess (status : Nat) : Bool :=
  decide (200 ≤ status ∧ status ≤ 299)

/-- `TokenManager::login`, classifying one already-received response.  The
`reqwest`/`serde_json` body decoders are parameters: `parseLogin` models
`response.json::<LoginResponse>()` (its failure propagates as a transport
error) and `parseApiError` models `serde_json::from_str::<ApiErrorResponse>`.
The status display carries the numeric code. -/
def TokenManager.login (parseLogin : String → Option LoginResponse)
    (parseApiError : String → Option ApiErrorResponse)
    (response : HttpResponse) : Except Error Token :=
  if statusIsSuccess response.status then
    match parseLogin response.body with
    | some login_response => .ok (Token.new login_response.token login_response.expires_at)
    | none => .error (.Http ("error decoding response body: " ++ response.body))
  else if response.status = 401 then
    .error (.Authentication ("Invalid credentials: " ++ response.body))
  else if response.status = 429 then
    .error (.RateLimited none)
  else
    match parseApiError response.body with
    | some api_error => .error (Error.from_api_response api_error)
    | none =>
      .error (.Authentication
        ("Authentication failed with status " ++ toString response.status ++ ": " ++ response.body))

/-- A byte is a lowercase hex digit: `0`-`9` (48-57) or `a`-`f` (97-102). -/
def isLowerHexDigit (c : Nat) : Bool :=
  (decide (48 ≤ c) && decide (c ≤ 57)) || (decide (97 ≤ c) && decide (c ≤ 102))

/-- `compute_signature` as the spec words it: the lowercase hex encoding of
HMAC-SHA256 keyed with the secret's bytes over the message formed by the
timestamp bytes followed immediately by the payload bytes. -/
def compute_signature_spec (secret timestamp payload : List Nat) : List Nat :=
  hexEncode (Sha256.hmacSha256 secret (timestamp ++ payload))

/-! ## Shared lemmas about the embedded definitions -/

/-- The two `update` calls of `compute_signature` authenticate the plain
concatenation of timestamp and payload. -/
theorem compute_signature_eq (secret timestamp payload : List Nat) :
    compute_signature secret timestamp payload =
      .ok (hexEncode (Sha256.hmacSha256 secret (timestamp ++ payload))) := rfl

/-- `compute_remote_auth_signature` authenticates the whole nonce. -/
theorem compute_remote_auth_signature_eq (shared_secret nonce : List Nat) :
    compute_remote_auth_signature shared_secret nonce =
      .ok (base64Encode (Sha256.hmacSha256 shared_secret nonce)) := rfl

/-- `str::split` always yields at least one piece. -/
theorem rustSplit_ne_nil (sep : Nat) (s : List Nat) : rustSplit sep s ≠ [] := by
  cases s with
  | nil => simp [rustSplit]
  | cons c rest =>
    simp only [rustSplit]
    split <;> simp

/-- The first piece of `str::split` is the part before the first separator. -/
theorem rustSplit_headI (sep : Nat) (s : List Nat) :
    (rustSplit sep s).headI = s.takeWhile (fun c => !(c == sep)) := by
  induction s with
  | nil => rfl
  | cons c rest ih =>
    by_cases h : c = sep
    · simp [rustSplit, h, List.takeWhile_cons]
    · simp [rustSplit, h, List.takeWhile_cons, ih]

/-- `split('.').next()` in iterator form: always `Some`, carrying the part of
the string before the first separator. -/
theorem rustSplit_head? (sep : Nat) (s : List Nat) :
    (rustSplit sep s).head? = some (s.takeWhile (fun c => !(c == sep))) := by
  rcases h : rustSplit sep s with _ | ⟨p, ps⟩
  · exact absurd h (rustSplit_ne_nil sep s)
  · have := rustSplit_headI sep s
    rw [h] at this
    simp [List.headI] at this
    simp [this]

/-- A bitwise or of naturals vanishes exactly when both sides do. -/
theorem lor_eq_zero (a b : Nat) : a ||| b = 0 ↔ a = 0 ∧ b = 0 := by
  constructor
  · intro h
    have hb : ∀ i, a.testBit i = false ∧ b.testBit i = false := by
      intro i
      have := congrArg (fun n => Nat.testBit n i) h
      simp only [Nat.testBit_or, Nat.zero_testBit, Bool.or_eq_false_iff] at this
      exact this
    exact ⟨Nat.eq_of_testBit_eq fun i => by simp [Nat.zero_testBit, (hb i).1],
      Nat.eq_of_testBit_eq fun i => by simp [Nat.zero_testBit, (hb i).2]⟩
  · rintro ⟨rfl, rfl⟩
    rfl

/-- The or-accumulator of xors is zero exactly when the accumulator started
at zero and every zipped byte pair agrees. -/
theorem foldl_or_xor (l : List (Nat × Nat)) (acc : Nat) :
    l.foldl (fun result xy => result ||| (xy.1 ^^^ xy.2)) acc = 0 ↔
      acc = 0 ∧ ∀ xy ∈ l, xy.1 = xy.2 := by
  induction l generalizing acc with
  | nil => simp
  | cons xy tl ih =>
    simp only [List.foldl_cons, ih, lor_eq_zero, List.mem_cons]
    constructor
    · rintro ⟨⟨h0, hxy⟩, htl⟩
      exact ⟨h0, fun p hp => hp.elim (fun e => e ▸ Nat.xor_eq_zero.mp hxy) (htl p)⟩
    · rintro ⟨h0, hall⟩
      exact ⟨⟨h0, Nat.xor_eq_zero.mpr (hall xy (Or.inl rfl))⟩,
        fun p hp => hall p (Or.inr hp)⟩

/-- Lists of equal length whose zip is pairwise equal are equal. -/
theorem eq_of_zip_eq (a : List Nat) : ∀ b : List Nat, a.length = b.length →
    (∀ xy ∈ a.zip b, xy.1 = xy.2) → a = b := by
  induction a with
  | nil => intro b hl _; cases b <;> simp_all
  | cons x xs ih =>
    intro b hl hz
    cases b with
    | nil => simp at hl
    | cons y ys =>
      have hx : x = y := hz (x, y) (by simp [List.zip_cons_cons])
      have : xs = ys := by
        refine ih ys (by simpa using hl) fun xy hxy => hz xy ?_
        simp [List.zip_cons_cons, hxy]
      rw [hx, this]

/-- Pairs drawn from a list zipped with itself agree componentwise. -/
theorem zip_self_fst_eq_snd (a : List Nat) : ∀ xy ∈ a.zip a, xy.1 = xy.2 := by
  induction a with
  | nil => simp
  | cons x xs ih =>
    intro xy hxy
    rcases List.mem_cons.mp (by simpa [List.zip_cons_cons] using hxy) with h | h
    · rw [h]
    · exact ih xy h

/-- The constant-time comparator decides byte-for-byte equality. -/
theorem constant_time_compare_iff (a b : List Nat) :
    constant_time_compare a b = true ↔ a = b := by
  unfold constant_time_compare
  by_cases hl : a.length = b.length
  · rw [if_neg (by simpa using hl), beq_iff_eq, foldl_or_xor]
    constructor
    · rintro ⟨-, hall⟩
      exact eq_of_zip_eq a b hl hall
    · rintro rfl
      exact ⟨rfl, zip_self_fst_eq_snd a⟩
  · rw [if_pos (by simpa using hl)]
    simp only [Bool.false_eq_true, false_iff]
    exact fun e => hl (by rw [e])

/-- A byte string always compares equal to itself. -/
theorem constant_time_compare_self (a : List Nat) : constant_time_compare a a = true :=
  (constant_time_compare_iff a a).mpr rfl

/-- `verify_timestamp` only ever fails with a timestamp-shaped error. -/
theorem verify_timestamp_error_cases (s : List Nat) (tolerance now : Nat)
    (e : WebhookError) (h : verify_timestamp s tolerance now = .error e) :
    e = .InvalidTimestamp ∨ e = .TimestampInFuture ∨
      ∃ age tol, e = .TimestampTooOld age tol := by
  unfold verify_timestamp at h
  rcases hp : parseU64 s with - | ms <;> rw [hp] at h
  · exact Or.inl (Except.error.inj h).symm
  · simp only at h
    split at h
    · exact Or.inr (Or.inl (Except.error.inj h).symm)
    · split at h
      · exact Or.inr (Or.inr ⟨_, _, (Except.error.inj h).symm⟩)
      · exact absurd h (by simp)

/-- A string with no separator byte is its own first split piece. -/
theorem takeWhile_no_sep (sep : Nat) (s : List Nat) (h : sep ∉ s) :
    s.takeWhile (fun c => !(c == sep)) = s := by
  induction s with
  | nil => rfl
  | cons c rest ih =>
    rw [List.takeWhile_cons]
    have hc : (c == sep) = false := by
      simp only [beq_eq_false_iff_ne]
      exact fun e => h (e ▸ List.mem_cons_self c rest)
    rw [hc]
    simp [ih fun hm => h (List.mem_cons_of_mem c hm)]

/-- A nibble encodes to a lowercase hex digit. -/
theorem hexDigitChar_isLower (n : Nat) (h : n < 16) :
    isLowerHexDigit (hexDigitChar n) = true := by
  unfold hexDigitChar isLowerHexDigit
  rcases Nat.lt_or_ge n 10 with h10 | h10
  · rw [if_pos h10]
    simp only [Bool.or_eq_true, Bool.and_eq_true, decide_eq_true_eq]
    omega
  · rw [if_neg (by omega)]
    simp only [Bool.or_eq_true, Bool.and_eq_true, decide_eq_true_eq]
    omega

/-- Every byte of a hex encoding is a lowercase hex digit. -/
theorem hexEncode_all_lower (bs : List Nat) :
    (hexEncode bs).all isLowerHexDigit = true := by
  rw [List.all_eq_true]
  intro c hc
  unfold hexEncode at hc
  rw [List.mem_flatten] at hc
  obtain ⟨l, hl, hcl⟩ := hc
  rw [List.mem_map] at hl
  obtain ⟨b, -, rfl⟩ := hl
  rcases List.mem_cons.mp hcl with rfl | hcl2
  · exact hexDigitChar_isLower _ (Nat.mod_lt _ (by omega))
  · rcases List.mem_cons.mp hcl2 with rfl | hcl3
    · exact hexDigitChar_isLower _ (Nat.mod_lt _ (by omega))
    · simp at hcl3

/-- `verify_timestamp` on a parsed timestamp, with the match and the local
binding reduced. -/
theorem verify_timestamp_some (s : List Nat) (tolerance now ms : Nat)
    (hp : parseU64 s = some ms) :
    verify_timestamp s tolerance now =
      if ms * 1000000 > now ∧ ms * 1000000 > now + 30 * 1000000000 then
        .error .TimestampInFuture
      else if ms * 1000000 ≤ now ∧ now - ms * 1000000 > tolerance then
        .error (.TimestampTooOld ((now - ms * 1000000) / 1000000000) (tolerance / 1000000000))
      else
        .ok () := by
  unfold verify_timestamp
  rw [hp]

/-- Round trip of the standard scheme: a fresh timestamp and the computed
signature verify. -/
theorem round_trip_standard (secret ts payload sig : List Nat) (tolerance now : Nat)
    (hts : verify_timestamp ts tolerance now = .ok ())
    (hcs : compute_signature secret ts payload = .ok sig) :
    verify_signature_with_tolerance secret ts payload sig tolerance now = .ok () := by
  unfold verify_signature_with_tolerance
  rw [hts, hcs]
  show (if constant_time_compare sig sig = true then (Except.ok () : Except WebhookError Unit)
    else .error .InvalidSignature) = .ok ()
  rw [if_pos (constant_time_compare_self sig)]

/-- Round trip of the remote-auth scheme: a nonce with a fresh timestamp
portion and the computed signature verify. -/
theorem round_trip_remote (shared_secret nonce sig : List Nat) (tolerance now : Nat)
    (hts : verify_timestamp ((rustSplit 46 nonce).headI) tolerance now = .ok ())
    (hcs : compute_remote_auth_signature shared_secret nonce = .ok sig) :
    verify_remote_auth_signature_with_tolerance shared_secret nonce sig tolerance now =
      .ok () := by
  rw [rustSplit_headI] at hts
  unfold verify_remote_auth_signature_with_tolerance
  rw [rustSplit_head?]
  show (match verify_timestamp (nonce.takeWhile (fun c => !(c == 46))) tolerance now with
    | .error e => (.error e : Except WebhookError Unit)
    | .ok _ =>
      match compute_remote_auth_signature shared_secret nonce with
      | .error e => .error e
      | .ok expected =>
        if constant_time_compare expected sig then .ok () else .error .InvalidSignature) =
    .ok ()
  rw [hts, hcs]
  show (if constant_time_compare sig sig = true then (Except.ok () : Except WebhookError Unit)
    else .error .InvalidSignature) = .ok ()
  rw [if_pos (constant_time_compare_self sig)]

/-! ## The claims -/

/-- C4: for every secret, timestamp string and payload, `compute_signature`
equals the lowercase hex encoding of HMAC-SHA256 keyed with the secret's
bytes over the timestamp bytes followed immediately by the payload bytes,
with no separator (timestamp first); and every byte of that encoding is a
lowercase hex digit. -/
theorem C4_compute_signature_follows_spec (secret timestamp payload : List Nat) :
    compute_signature secret timestamp payload =
      .ok (compute_signature_spec secret timestamp payload) ∧
    (compute_signature_spec secret timestamp payload).all isLowerHexDigit = true :=
  ⟨compute_signature_eq secret timestamp payload, hexEncode_all_lower _⟩

/-- C5: the constant-time comparator decides exact equality of byte strings:
it returns `true` iff the two are byte-for-byte equal, any length difference
returns `false`, and comparing two empty strings returns `true`. -/
theorem C5_constant_time_compare_decides_equality :
    (∀ a b : List Nat, constant_time_compare a b = true ↔ a = b) ∧
    (∀ a b : List Nat, a.length ≠ b.length → constant_time_compare a b = false) ∧
    constant_time_compare [] [] = true := by
  refine ⟨constant_time_compare_iff, fun a b h => ?_, rfl⟩
  unfold constant_time_compare
  rw [if_pos (by simpa using h)]

/-- C5 witness: a length difference compares `false`, equal strings compare
`true`, via the claim's theorem at concrete bytes. -/
theorem C5_witness :
    constant_time_compare [97] [] = false ∧
    constant_time_compare [97, 98] [97, 98] = true :=
  ⟨C5_constant_time_compare_decides_equality.2.1 [97] [] (by decide),
   (C5_constant_time_compare_decides_equality.1 [97, 98] [97, 98]).mpr rfl⟩

/-- C10: `compute_signature` and `compute_remote_auth_signature` never fail:
HMAC-SHA256 key initialization accepts keys of every length (including the
empty one), so the `HmacError` branch is unreachable and both functions
always return a signature. -/
theorem C10_compute_functions_never_fail (secret timestamp payload nonce : List Nat) :
    (∃ sig, compute_signature secret timestamp payload = .ok sig) ∧
    (∃ sig, compute_remote_auth_signature secret nonce = .ok sig) :=
  ⟨⟨_, compute_signature_eq secret timestamp payload⟩,
   ⟨_, compute_remote_auth_signature_eq secret nonce⟩⟩

/-- C1 counterexample: for the nonce `"a.b"` — whose portion before the first
`.` does not parse as an integer — remote-auth verification returns
`InvalidTimestamp`, not the claimed `InvalidNonce`. -/
theorem C1_counterexample :
    verify_remote_auth_signature [107] [97, 46, 98] [120] 0 =
      .error .InvalidTimestamp ∧
    verify_remote_auth_signature [107] [97, 46, 98] [120] 0 ≠
      .error .InvalidNonce := by
  refine ⟨rfl, fun h => ?_⟩
  rw [show verify_remote_auth_signature [107] [97, 46, 98] [120] 0 =
        .error .InvalidTimestamp from rfl] at h
  exact WebhookError.noConfusion (Except.error.inj h)

/-- C1 (amended): when the portion of the nonce before the first `.` does not
parse as an integer, remote-auth verification returns the distinct error
`InvalidTimestamp` (the timestamp parse failure), for every shared secret,
signature and tolerance. -/
theorem C1_amended_non_numeric_yields_invalid_timestamp
    (shared_secret nonce signature : List Nat) (tolerance now : Nat)
    (h : parseU64 (nonce.takeWhile (fun c => !(c == 46))) = none) :
    verify_remote_auth_signature_with_tolerance shared_secret nonce signature tolerance now =
      .error .InvalidTimestamp := by
  have hvt : verify_timestamp (nonce.takeWhile (fun c => !(c == 46))) tolerance now =
      .error .InvalidTimestamp := by
    unfold verify_timestamp
    rw [h]
  unfold verify_remote_auth_signature_with_tolerance
  rw [rustSplit_head?]
  show (match verify_timestamp (nonce.takeWhile (fun c => !(c == 46))) tolerance now with
    | .error e => (.error e : Except WebhookError Unit)
    | .ok _ =>
      match compute_remote_auth_signature shared_secret nonce with
      | .error e => .error e
      | .ok expected =>
        if constant_time_compare expected signature then .ok () else .error .InvalidSignature) =
    .error .InvalidTimestamp
  rw [hvt]

/-- C1 (amended) witness: the amended statement at the concrete nonce
`"a.b"`. -/
theorem C1_amended_witness :
    verify_remote_auth_signature_with_tolerance [107] [97, 46, 98] [120] 300000000000 5 =
      .error .InvalidTimestamp :=
  C1_amended_non_numeric_yields_invalid_timestamp [107] [97, 46, 98] [120] 300000000000 5 rfl

/-- C2: the shared timestamp-freshness check, for every timestamp string and
tolerance: an unparseable string yields `InvalidTimestamp`; a timestamp
strictly more than 30 seconds in the future yields `TimestampInFuture`,
while a future timestamp within that 30-second window is accepted; a
timestamp with `now - timestamp > tolerance` yields `TimestampTooOld`
carrying both the age and the tolerance in seconds; otherwise the check
accepts. -/
theorem C2_verify_timestamp_characterization (s : List Nat) (tolerance now : Nat) :
    (parseU64 s = none → verify_timestamp s tolerance now = .error .InvalidTimestamp) ∧
    (∀ ms, parseU64 s = some ms → ms * 1000000 > now + 30 * 1000000000 →
      verify_timestamp s tolerance now = .error .TimestampInFuture) ∧
    (∀ ms, parseU64 s = some ms → now < ms * 1000000 →
      ms * 1000000 ≤ now + 30 * 1000000000 →
      verify_timestamp s tolerance now = .ok ()) ∧
    (∀ ms, parseU64 s = some ms → ms * 1000000 ≤ now → now - ms * 1000000 > tolerance →
      verify_timestamp s tolerance now =
        .error (.TimestampTooOld ((now - ms * 1000000) / 1000000000)
          (tolerance / 1000000000))) ∧
    (∀ ms, parseU64 s = some ms → ms * 1000000 ≤ now → now - ms * 1000000 ≤ tolerance →
      verify_timestamp s tolerance now = .ok ()) := by
  refine ⟨fun h => ?_, fun ms hp hf => ?_, fun ms hp h1 h2 => ?_,
    fun ms hp h1 h2 => ?_, fun ms hp h1 h2 => ?_⟩
  · unfold verify_timestamp
    rw [h]
  · rw [verify_timestamp_some s tolerance now ms hp, if_pos ⟨by omega, hf⟩]
  · rw [verify_timestamp_some s tolerance now ms hp, if_neg (by omega), if_neg (by omega)]
  · rw [verify_timestamp_some s tolerance now ms hp, if_neg (by omega), if_pos ⟨h1, h2⟩]
  · rw [verify_timestamp_some s tolerance now ms hp, if_neg (by omega), if_neg (by omega)]

/-- C2 witness: one concrete input per branch of the freshness check —
a non-numeric string, a timestamp 100 seconds in the future, one 20 seconds
in the future, one 600 seconds old against a 300-second tolerance, and a
current one. -/
theorem C2_witness :
    verify_timestamp [120] 300000000000 0 = .error .InvalidTimestamp ∧
    verify_timestamp [49, 48, 48, 48, 48, 48] 300000000000 0 = .error .TimestampInFuture ∧
    verify_timestamp [50, 48, 48, 48, 48] 300000000000 0 = .ok () ∧
    verify_timestamp [48] 300000000000 600000000000 = .error (.TimestampTooOld 600 300) ∧
    verify_timestamp [48] 300000000000 0 = .ok () :=
  ⟨(C2_verify_timestamp_characterization [120] 300000000000 0).1 rfl,
   (C2_verify_timestamp_characterization _ _ _).2.1 100000 rfl (by omega),
   (C2_verify_timestamp_characterization _ _ _).2.2.1 20000 rfl (by omega) (by omega),
   (C2_verify_timestamp_characterization _ _ _).2.2.2.1 0 rfl (by omega) (by omega),
   (C2_verify_timestamp_characterization _ _ _).2.2.2.2 0 rfl (by omega) (by omega)⟩

/-- C3: round trip — a timestamp that passes the freshness check verifies
against the signature computed from the same secret, timestamp and payload;
likewise a nonce whose portion before the first `.` passes the freshness
check verifies against its computed remote-auth signature. -/
theorem C3_round_trip :
    (∀ secret ts payload sig tolerance now,
      verify_timestamp ts tolerance now = .ok () →
      compute_signature secret ts payload = .ok sig →
      verify_signature_with_tolerance secret ts payload sig tolerance now = .ok ()) ∧
    (∀ shared_secret nonce sig tolerance now,
      verify_timestamp ((rustSplit 46 nonce).headI) tolerance now = .ok () →
      compute_remote_auth_signature shared_secret nonce = .ok sig →
      verify_remote_auth_signature_with_tolerance shared_secret nonce sig tolerance now =
        .ok ()) :=
  ⟨fun secret ts payload sig tolerance now hts hcs =>
    round_trip_standard secret ts payload sig tolerance now hts hcs,
   fun shared_secret nonce sig tolerance now hts hcs =>
    round_trip_remote shared_secret nonce sig tolerance now hts hcs⟩

/-- C3 witness: the round trip at a concrete secret, payload and the
1-second millisecond timestamp `"1000"`, verified at `now` = 1 second. -/
theorem C3_witness :
    verify_signature_with_tolerance [115] [49, 48, 48, 48] [112]
      (hexEncode (Sha256.hmacSha256 [115] ([49, 48, 48, 48] ++ [112])))
      300000000000 1000000000 = .ok () ∧
    verify_remote_auth_signature_with_tolerance [115] [49, 48, 48, 48]
      (base64Encode (Sha256.hmacSha256 [115] [49, 48, 48, 48]))
      300000000000 1000000000 = .ok () :=
  ⟨C3_round_trip.1 [115] [49, 48, 48, 48] [112] _ 300000000000 1000000000 rfl
     (compute_signature_eq [115] [49, 48, 48, 48] [112]),
   C3_round_trip.2 [115] [49, 48, 48, 48] _ 300000000000 1000000000 rfl
     (compute_remote_auth_signature_eq [115] [49, 48, 48, 48])⟩

/-- C9: the nonce-splitting step never fails — `split('.').next()` always
yields the part before the first `.` (the whole string when there is no
`.`) — so the verification functions never return `InvalidNonce` for any
input, and a bare numeric fresh timestamp with a matching signature
verifies successfully. -/
theorem C9_nonce_split_never_fails :
    (∀ shared_secret nonce sig tolerance now,
      verify_remote_auth_signature_with_tolerance shared_secret nonce sig tolerance now ≠
        .error .InvalidNonce) ∧
    (∀ secret ts payload sig tolerance now,
      verify_signature_with_tolerance secret ts payload sig tolerance now ≠
        .error .InvalidNonce) ∧
    (∀ shared_secret nonce tolerance now,
      (46 : Nat) ∉ nonce →
      verify_timestamp nonce tolerance now = .ok () →
      verify_remote_auth_signature_with_tolerance shared_secret nonce
        (base64Encode (Sha256.hmacSha256 shared_secret nonce)) tolerance now = .ok ()) := by
  refine ⟨?_, ?_, ?_⟩
  · intro shared_secret nonce sig tolerance now h
    unfold verify_remote_auth_signature_with_tolerance at h
    rw [rustSplit_head?] at h
    replace h :
        (match verify_timestamp (nonce.takeWhile (fun c => !(c == 46))) tolerance now with
          | .error e => (.error e : Except WebhookError Unit)
          | .ok _ =>
            match compute_remote_auth_signature shared_secret nonce with
            | .error e => .error e
            | .ok expected =>
              if constant_time_compare expected sig then .ok ()
              else .error .InvalidSignature) = .error .InvalidNonce := h
    cases hv : verify_timestamp (nonce.takeWhile (fun c => !(c == 46))) tolerance now with
    | error e =>
      rw [hv] at h
      simp only [Except.error.injEq] at h
      rw [h] at hv
      rcases verify_timestamp_error_cases _ _ _ _ hv with he | he | ⟨a, b, he⟩ <;>
        exact WebhookError.noConfusion he
    | ok u =>
      rw [hv, compute_remote_auth_signature_eq] at h
      simp only at h
      split at h <;> simp at h
  · intro secret ts payload sig tolerance now h
    unfold verify_signature_with_tolerance at h
    cases hv : verify_timestamp ts tolerance now with
    | error e =>
      rw [hv] at h
      simp only [Except.error.injEq] at h
      rw [h] at hv
      rcases verify_timestamp_error_cases _ _ _ _ hv with he | he | ⟨a, b, he⟩ <;>
        exact WebhookError.noConfusion he
    | ok u =>
      rw [hv, compute_signature_eq] at h
      simp only at h
      split at h <;> simp at h
  · intro shared_secret nonce tolerance now hnd hts
    refine round_trip_remote shared_secret nonce _ tolerance now ?_
      (compute_remote_auth_signature_eq shared_secret nonce)
    rw [rustSplit_headI, takeWhile_no_sep 46 nonce hnd]
    exact hts

/-- C9 witness: the dot-free numeric nonce `"1"` verifies with its computed
signature at `now` = 1 millisecond, via the claim's theorem. -/
theorem C9_witness :
    verify_remote_auth_signature_with_tolerance [107] [49]
      (base64Encode (Sha256.hmacSha256 [107] [49])) 300000000000 1000000 = .ok () :=
  C9_nonce_split_never_fails.2.2 [107] [49] 300000000000 1000000 (by decide) rfl

/-- C6 counterexample: the chrono-representable buffer of exactly `i64::MAX`
milliseconds passes `from_std`, yet for a token expiring at the epoch and
`now` at the epoch the code does not return a boolean at all — the
`DateTime + Duration` addition panics (`none`) — where the claim asserts the
call returns `true` (`now + b >= T` holds). -/
theorem C6_counterexample :
    chronoDurationFromStd 9223372036854775807000000 = some 9223372036854775807000000 ∧
    (0 : Int) + (9223372036854775807000000 : Int) ≥ (Token.new "t" 0).expires_at ∧
    Token.is_expired_with_buffer (Token.new "t" 0) 9223372036854775807000000 0 ≠
      some true ∧
    Token.is_expired_with_buffer (Token.new "t" 0) 9223372036854775807000000 0 =
      none := by
  refine ⟨by decide, by decide, ?_, ?_⟩ <;> decide

/-- C6 (amended): for every token with expiry `T`, every buffer representable
in chrono's duration type (at most `i64::MAX` milliseconds), and every `now`
for which `now + buffer` stays inside `DateTime`'s representable range (so
the addition does not panic), `is_expired_with_buffer` at `now` returns a
value, and that value is `true` iff `now + buffer >= T`; equivalently it is
`true` for all `now >= T - buffer` and `false` for all `now < T - buffer`. -/
theorem C6_is_expired_with_buffer (t : Token) (buffer : Nat) (now : Int)
    (h : buffer ≤ 9223372036854775807 * 1000000)
    (hlo : dateTimeMinNs ≤ now + (buffer : Int))
    (hhi : now + (buffer : Int) ≤ dateTimeMaxNs) :
    (t.is_expired_with_buffer buffer now = some true ↔
      now + (buffer : Int) ≥ t.expires_at) ∧
    (t.is_expired_with_buffer buffer now = some true ↔
      now ≥ t.expires_at - (buffer : Int)) ∧
    (t.is_expired_with_buffer buffer now = some false ↔
      now < t.expires_at - (buffer : Int)) := by
  have hb : (chronoDurationFromStd buffer).getD 0 = buffer := by
    unfold chronoDurationFromStd
    rw [if_pos h]
    rfl
  have hadd : dateTimeAdd now (buffer : Int) = some (now + (buffer : Int)) := by
    unfold dateTimeAdd
    rw [if_pos ⟨hlo, hhi⟩]
  unfold Token.is_expired_with_buffer
  rw [hb]
  simp only [hadd, Option.some.injEq]
  refine ⟨decide_eq_true_iff, ?_, ?_⟩
  · rw [decide_eq_true_iff]
    omega
  · rw [decide_eq_false_iff_not]
    omega

/-- C6 witness: a token expiring at instant 5 with buffer 2 is expired at
`now` = 3 and not expired at `now` = 2, via the claim's theorem. -/
theorem C6_witness :
    Token.is_expired_with_buffer (Token.new "t" 5) 2 3 = some true ∧
    Token.is_expired_with_buffer (Token.new "t" 5) 2 2 = some false :=
  ⟨(C6_is_expired_with_buffer (Token.new "t" 5) 2 3 (by decide) (by decide)
      (by decide)).1.mpr (by decide),
   (C6_is_expired_with_buffer (Token.new "t" 5) 2 2 (by decide) (by decide)
      (by decide)).2.2.mpr (by decide)⟩

/-- C7: the login exchange classifies every response by status — a 2xx
response with a parseable `{token, expires_at}` body yields that token; a
401 yields an authentication error carrying the body text; a 429 yields a
rate-limited error with no retry hint; any other non-2xx status becomes the
parsed structured API error when the body parses, and otherwise a generic
authentication failure carrying the raw status and body. -/
theorem C7_login_classification (parseLogin : String → Option LoginResponse)
    (parseApiError : String → Option ApiErrorResponse) (response : HttpResponse) :
    (∀ lr, statusIsSuccess response.status = true → parseLogin response.body = some lr →
      TokenManager.login parseLogin parseApiError response =
        .ok (Token.new lr.token lr.expires_at)) ∧
    (response.status = 401 →
      TokenManager.login parseLogin parseApiError response =
        .error (.Authentication ("Invalid credentials: " ++ response.body))) ∧
    (response.status = 429 →
      TokenManager.login parseLogin parseApiError response = .error (.RateLimited none)) ∧
    (∀ e, statusIsSuccess response.status = false → response.status ≠ 401 →
      response.status ≠ 429 → parseApiError response.body = some e →
      TokenManager.login parseLogin parseApiError response =
        .error (Error.from_api_response e)) ∧
    (statusIsSuccess response.status = false → response.status ≠ 401 →
      response.status ≠ 429 → parseApiError response.body = none →
      TokenManager.login parseLogin parseApiError response =
        .error (.Authentication ("Authentication failed with status " ++
          toString response.status ++ ": " ++ response.body))) := by
  refine ⟨fun lr hs hp => ?_, fun h401 => ?_, fun h429 => ?_,
    fun e hs h1 h2 hp => ?_, fun hs h1 h2 hp => ?_⟩
  · unfold TokenManager.login
    rw [if_pos hs, hp]
  · unfold TokenManager.login
    rw [h401]
    rw [if_neg (by unfold statusIsSuccess; simp), if_pos rfl]
  · unfold TokenManager.login
    rw [h429]
    rw [if_neg (by unfold statusIsSuccess; simp), if_neg (by simp), if_pos rfl]
  · unfold TokenManager.login
    rw [if_neg (by simp [hs]), if_neg h1, if_neg h2, hp]
  · unfold TokenManager.login
    rw [if_neg (by simp [hs]), if_neg h1, if_neg h2, hp]

/-- C7 witness: the five response classes at concrete statuses and bodies,
with a decoder that accepts every body as the token `"tok"` expiring at 9
and an API-error decoder that accepts nothing, via the claim's theorem. -/
theorem C7_witness :
    TokenManager.login (fun _ => some ⟨"tok", 9⟩) (fun _ => none) ⟨200, "b"⟩ =
      .ok (Token.new "tok" 9) ∧
    TokenManager.login (fun _ => some ⟨"tok", 9⟩) (fun _ => none) ⟨401, "b"⟩ =
      .error (.Authentication ("Invalid credentials: " ++ "b")) ∧
    TokenManager.login (fun _ => some ⟨"tok", 9⟩) (fun _ => none) ⟨429, "b"⟩ =
      .error (.RateLimited none) ∧
    TokenManager.login (fun _ => some ⟨"tok", 9⟩)
        (fun _ => some ⟨"c", "m", none, none⟩) ⟨500, "b"⟩ =
      .error (.Api "c" "m" none none) ∧
    TokenManager.login (fun _ => some ⟨"tok", 9⟩) (fun _ => none) ⟨500, "b"⟩ =
      .error (.Authentication ("Authentication failed with status " ++
        toString 500 ++ ": " ++ "b")) :=
  ⟨(C7_login_classification _ _ ⟨200, "b"⟩).1 ⟨"tok", 9⟩ (by decide) rfl,
   (C7_login_classification _ _ ⟨401, "b"⟩).2.1 rfl,
   (C7_login_classification _ _ ⟨429, "b"⟩).2.2.1 rfl,
   (C7_login_classification _ _ ⟨500, "b"⟩).2.2.2.1 ⟨"c", "m", none, none⟩
     (by decide) (by decide) (by decide) rfl,
   (C7_login_classification _ _ ⟨500, "b"⟩).2.2.2.2 (by decide) (by decide) (by decide) rfl⟩

end Airwallex
